import Mathlib

/-
Verification of the scene-graph-to-component compiler of vue-gltf-converter
(src/utils/parser.ts), shallowly embedded in Lean 4.  JavaScript numbers are
modelled as rationals, objects as structures, instanceof dispatch as explicit
kind tags (with the three.js subclass facts recorded where they matter), and
emitted text as Lean strings.  Literal braces and apostrophes inside emitted
text are written with escape sequences.
-/

namespace VueGltf

/-! ### Identifier sanitizer (parser.ts sanitizeName) -/

/-- One character of the global regex replace of every character outside
a-z, A-Z, 0-9 by an underscore. -/
def underscoreChar (c : Char) : Char :=
  if c.isAlphanum then c else '_'

/-- The first replace of sanitizeName: every non-alphanumeric character
becomes an underscore. -/
def replaceNonAlnum (s : String) : String :=
  String.mk (s.data.map underscoreChar)

/-- The second replace of sanitizeName: when the first character is a digit,
an underscore is prepended. -/
def guardLeadingDigit (s : String) : String :=
  match s.data with
  | [] => s
  | c :: _ => if c.isDigit then String.mk ('_' :: s.data) else s

/-- The third replace of sanitizeName: the leading run and the trailing run
of underscores are removed. -/
def trimUnderscores (s : String) : String :=
  String.mk (((s.data.dropWhile (fun c => c == '_')).reverse.dropWhile
    (fun c => c == '_')).reverse)

/-- parser.ts sanitizeName: underscore-replace, guard a leading digit, trim
underscores at both ends, and fall back to "Component" when the result is
empty (the empty string is falsy in JavaScript). -/
def sanitizeName (name : String) : String :=
  let r := trimUnderscores (guardLeadingDigit (replaceNonAlnum name))
  if r = "" then "Component" else r

/-- Decides whether a character may start an identifier of the language
described by the spec regex. -/
def isIdentStart (c : Char) : Bool := c.isAlpha || c == '_'

/-- Decides whether a character may continue such an identifier. -/
def isIdentChar (c : Char) : Bool := c.isAlphanum || c == '_'

/-- Decides membership in the identifier language of the spec: a letter or
underscore followed by letters, digits and underscores. -/
def isValidIdent (s : String) : Bool :=
  match s.data with
  | [] => false
  | c :: cs => isIdentStart c && cs.all isIdentChar

/-! ### Colors and property values -/

/-- three.js Color, reduced to its 24-bit integer value.  getHex returns this
value. -/
structure Color where
  hex : Nat
deriving DecidableEq, Repr

/-- three.js Color.getHexString: the six lowercase hex digits of the color
value (its last six hex digits when the value is larger). -/
def Color.getHexString (c : Color) : String :=
  String.mk [Nat.digitChar (c.hex / 1048576 % 16), Nat.digitChar (c.hex / 65536 % 16),
    Nat.digitChar (c.hex / 4096 % 16), Nat.digitChar (c.hex / 256 % 16),
    Nat.digitChar (c.hex / 16 % 16), Nat.digitChar (c.hex % 16)]

/-- A value stored in an emitted property bag: a string, a number, or the
bare boolean true of the transparent flag. -/
inductive PropVal where
  | str (s : String)
  | num (q : ℚ)
  | flag (b : Bool)
deriving DecidableEq, Repr

/-- Abstraction of the JavaScript number-to-text conversion used by the
template literals.  No claim depends on the exact numeral text. -/
def ratText (q : ℚ) : String := toString q

/-- The text a property value contributes to an emitted attribute. -/
def PropVal.render : PropVal → String
  | .str s => s
  | .num q => ratText q
  | .flag b => if b then "true" else "false"

/-- The keys of a property bag, in insertion order. -/
def keys (l : List (String × PropVal)) : List String := l.map Prod.fst

/-- A conditionally present property, mirroring the conditional assignments
that build the props objects in parser.ts. -/
def optProp (p : Prop) [Decidable p] (k : String) (v : PropVal) :
    List (String × PropVal) :=
  if p then [(k, v)] else []

/-! ### Materials (parser.ts parseMaterial) -/

/-- The dynamic class of a material, as far as the instanceof ladder of
parseMaterial can observe it. -/
inductive MatKind where
  | standard
  | physical
  | lambert
  | basicKind
  | otherKind
deriving DecidableEq, Repr

/-- THREE.FrontSide, THREE.BackSide, THREE.DoubleSide. -/
inductive Side where
  | front
  | back
  | double
deriving DecidableEq, Repr

/-- A three.js material, reduced to the fields parseMaterial reads.  color is
none when the material has no truthy color channel. -/
structure Material where
  kind : MatKind
  color : Option Color
  roughness : ℚ
  metalness : ℚ
  clearcoat : ℚ
  emissive : Color
  transparent : Bool
  opacity : ℚ
  side : Side
deriving DecidableEq, Repr

/-- instanceof THREE.MeshStandardMaterial.  This is true for the physical
kind as well: MeshPhysicalMaterial extends MeshStandardMaterial in three.js. -/
def isStandardInst (m : Material) : Bool :=
  m.kind == MatKind.standard || m.kind == MatKind.physical

/-- instanceof THREE.MeshPhysicalMaterial. -/
def isPhysicalInst (m : Material) : Bool := m.kind == MatKind.physical

/-- instanceof THREE.MeshLambertMaterial. -/
def isLambertInst (m : Material) : Bool := m.kind == MatKind.lambert

/-- The color property emitted by every branch of parseMaterial whenever the
material has a truthy color channel. -/
def colorPropOf (c : Option Color) : List (String × PropVal) :=
  match c with
  | some cc => [("color", PropVal.str ("0x" ++ cc.getHexString))]
  | none => []

/-- The side property appended by the common tail of parseMaterial when the
side is not the front default. -/
def sidePropOf (sd : Side) : List (String × PropVal) :=
  if sd = Side.front then []
  else [("side", PropVal.str (if sd = Side.back then "BackSide" else "DoubleSide"))]

/-- The pair of emitted tag and property bag a material maps to. -/
structure MaterialOut where
  type : String
  props : List (String × PropVal)
deriving DecidableEq, Repr

/-- parser.ts parseMaterial on a single material (an array-valued assignment
is collapsed to its first element before this logic runs).  The instanceof
ladder tests MeshStandardMaterial before MeshPhysicalMaterial; the import the
source adds in each branch equals the chosen tag and is applied by the walker
step. -/
def parseMaterial (m : Material) : MaterialOut :=
  let branch : MaterialOut :=
    if isStandardInst m then
      { type := "TresMeshStandardMaterial"
        props := colorPropOf m.color
          ++ optProp (m.roughness ≠ 1) "roughness" (PropVal.num m.roughness)
          ++ optProp (m.metalness ≠ 0) "metalness" (PropVal.num m.metalness)
          ++ optProp (m.emissive.hex ≠ 0) "emissive"
              (PropVal.str ("0x" ++ m.emissive.getHexString)) }
    else if isPhysicalInst m then
      { type := "TresMeshPhysicalMaterial"
        props := colorPropOf m.color
          ++ optProp (m.roughness ≠ 1) "roughness" (PropVal.num m.roughness)
          ++ optProp (m.metalness ≠ 0) "metalness" (PropVal.num m.metalness)
          ++ optProp (m.clearcoat ≠ 0) "clearcoat" (PropVal.num m.clearcoat) }
    else if isLambertInst m then
      { type := "TresMeshLambertMaterial", props := colorPropOf m.color }
    else
      { type := "TresMeshBasicMaterial", props := colorPropOf m.color }
  { type := branch.type
    props := branch.props
      ++ optProp (m.transparent = true) "transparent" (PropVal.flag true)
      ++ optProp (m.opacity ≠ 1) "opacity" (PropVal.num m.opacity)
      ++ sidePropOf m.side }

/-! ### Geometry (parser.ts parseGeometry) -/

/-- The dynamic class of a geometry as observed by the instanceof tests of
parseGeometry. -/
inductive GeomKind where
  | box
  | sphere
  | plane
  | cylinder
  | otherGeom
deriving DecidableEq, Repr

/-- The constructor parameter record of a geometry; a field is none when the
parameter is absent on the source object. -/
structure GeomParams where
  width : Option ℚ
  height : Option ℚ
  depth : Option ℚ
  radius : Option ℚ
  widthSegments : Option ℚ
  heightSegments : Option ℚ
  radiusTop : Option ℚ
  radiusBottom : Option ℚ
deriving DecidableEq, Repr

/-- A three.js BufferGeometry, reduced to the fields parseGeometry reads.
parameters is none when the parameters record itself is absent. -/
structure BufferGeometry where
  typeName : String
  kind : GeomKind
  parameters : Option GeomParams
deriving DecidableEq, Repr

/-- The JavaScript expression v or-else d: an absent parameter and the number
zero are both falsy and fall back to the default. -/
def jsOr (v : Option ℚ) (d : ℚ) : ℚ :=
  match v with
  | none => d
  | some x => if x = 0 then d else x

/-- Replaces the first occurrence of a pattern in a character list. -/
def replaceFirstAux (pat rep : List Char) : List Char → List Char
  | [] => []
  | c :: rest =>
    if pat.isPrefixOf (c :: rest) then rep ++ (c :: rest).drop pat.length
    else c :: replaceFirstAux pat rep rest

/-- JavaScript String.replace with a plain-string pattern: only the first
occurrence is replaced. -/
def replaceFirst (s pat rep : String) : String :=
  String.mk (replaceFirstAux pat.data rep.data s.data)

/-- The pair of emitted tag and optional positional argument list a geometry
maps to (the props object of the source holds at most the args key). -/
structure GeometryOut where
  type : String
  args : Option (List ℚ)
deriving DecidableEq, Repr

/-- parser.ts parseGeometry: strip the word Geometry from the type name; for
the four supported kinds read the parameter record, when present, into the
positional args list, defaulting each falsy slot. -/
def parseGeometry (g : BufferGeometry) : GeometryOut :=
  let t := replaceFirst g.typeName "Geometry" ""
  match g.kind with
  | GeomKind.box =>
    match g.parameters with
    | some p => { type := t, args := some [jsOr p.width 1, jsOr p.height 1, jsOr p.depth 1] }
    | none => { type := t, args := none }
  | GeomKind.sphere =>
    match g.parameters with
    | some p =>
      { type := t
        args := some [jsOr p.radius 1, jsOr p.widthSegments 32, jsOr p.heightSegments 16] }
    | none => { type := t, args := none }
  | GeomKind.plane =>
    match g.parameters with
    | some p => { type := t, args := some [jsOr p.width 1, jsOr p.height 1] }
    | none => { type := t, args := none }
  | GeomKind.cylinder =>
    match g.parameters with
    | some p =>
      { type := t
        args := some [jsOr p.radiusTop 1, jsOr p.radiusBottom 1, jsOr p.height 1] }
    | none => { type := t, args := none }
  | GeomKind.otherGeom => { type := t, args := none }

/-! ### Lights, cameras, transforms, scene nodes -/

/-- The dynamic class of a light as observed by the instanceof ladder of
parseLight (directional, ambient, point and spot are unrelated classes in
three.js). -/
inductive LightKind where
  | directional
  | ambient
  | point
  | spot
  | otherLight
deriving DecidableEq, Repr

/-- A three.js light, reduced to the fields parseLight reads. -/
structure LightData where
  kind : LightKind
  color : Color
  intensity : ℚ
  distance : ℚ
  angle : ℚ
  penumbra : ℚ
deriving DecidableEq, Repr

/-- The dynamic class of a camera as observed by parseCamera. -/
inductive CameraKind where
  | perspective
  | orthographic
  | otherCamera
deriving DecidableEq, Repr

/-- A three.js camera, reduced to the fields parseCamera reads.  The
orthographic frustum fields are unread for the perspective kind and
conversely. -/
structure CameraData where
  kind : CameraKind
  fov : ℚ
  aspect : ℚ
  near : ℚ
  far : ℚ
  left : ℚ
  right : ℚ
  top : ℚ
  bottom : ℚ
deriving DecidableEq, Repr

/-- A three-component vector (position, Euler rotation, or scale). -/
structure Vec3 where
  x : ℚ
  y : ℚ
  z : ℚ
deriving DecidableEq, Repr

/-- The outcome of the instanceof dispatch of parseScene on one visited
object: Mesh, else Light, else Camera, else a plain object that is traversed
but yields no entity (Group, Bone, plain Object3D). -/
inductive Payload where
  | mesh (geometry : BufferGeometry) (material : Material) (castShadow receiveShadow : Bool)
  | light (l : LightData)
  | camera (c : CameraData)
  | plain
deriving DecidableEq, Repr

/-- One scene-graph object: name, local transform and the kind-specific
payload parseScene dispatches on. -/
structure NodeData where
  name : String
  position : Vec3
  rotation : Vec3
  scale : Vec3
  payload : Payload
deriving DecidableEq, Repr

/-- The transform descriptor: a triple is none when it was elided. -/
structure Transform where
  position : Option (ℚ × ℚ × ℚ)
  rotation : Option (ℚ × ℚ × ℚ)
  scale : Option (ℚ × ℚ × ℚ)
deriving DecidableEq, Repr

/-- Number(x.toFixed(p)): round to p decimal places, ties toward the larger
value, modelled exactly over the rationals. -/
def jsToFixed (p : ℕ) (q : ℚ) : ℚ :=
  ((round (q * (10 : ℚ) ^ p) : ℤ) : ℚ) / (10 : ℚ) ^ p

/-- parser.ts parseTransform: each triple is compared raw against its neutral
value, and when some raw component differs the triple is emitted with every
component rounded through toFixed(3). -/
def parseTransform (n : NodeData) : Transform :=
  { position :=
      if n.position.x ≠ 0 ∨ n.position.y ≠ 0 ∨ n.position.z ≠ 0 then
        some (jsToFixed 3 n.position.x, jsToFixed 3 n.position.y, jsToFixed 3 n.position.z)
      else none
    rotation :=
      if n.rotation.x ≠ 0 ∨ n.rotation.y ≠ 0 ∨ n.rotation.z ≠ 0 then
        some (jsToFixed 3 n.rotation.x, jsToFixed 3 n.rotation.y, jsToFixed 3 n.rotation.z)
      else none
    scale :=
      if n.scale.x ≠ 1 ∨ n.scale.y ≠ 1 ∨ n.scale.z ≠ 1 then
        some (jsToFixed 3 n.scale.x, jsToFixed 3 n.scale.y, jsToFixed 3 n.scale.z)
      else none }

/-! ### IR entries and the accumulator -/

/-- One mesh entry of the accumulator. -/
structure ComponentMesh where
  name : String
  geometry : GeometryOut
  material : MaterialOut
  transform : Transform
  castShadow : Bool
  receiveShadow : Bool
deriving DecidableEq, Repr

/-- One light entry of the accumulator (the source type annotates transform
as optional but parseLight always supplies it). -/
structure ComponentLight where
  type : String
  props : List (String × PropVal)
  transform : Transform
deriving DecidableEq, Repr

/-- One camera entry of the accumulator. -/
structure ComponentCamera where
  type : String
  props : List (String × PropVal)
  transform : Transform
deriving DecidableEq, Repr

/-- The accumulator of parseToVue.  The fields the source never reads after
writing (components, textures, materials) are omitted. -/
structure ComponentData where
  imports : List String
  animations : List String
  meshes : List ComponentMesh
  lights : List ComponentLight
  cameras : List ComponentCamera
deriving DecidableEq, Repr

/-- Set.add on the insertion-ordered imports set. -/
def insertImport (l : List String) (s : String) : List String :=
  if s ∈ l then l else l ++ [s]

/-- The truth value of an optional JavaScript boolean: undefined is falsy. -/
def truthy (o : Option Bool) : Bool := o.getD false

/-- parser.ts ParseConfig.  Optional fields model optional object keys. -/
structure ParseConfig where
  fileName : String
  types : Option Bool
  useComposition : Option Bool
  shadows : Option Bool
  autoRotate : Option Bool
  contactShadow : Option Bool
  environment : Option String
  preset : Option String
  intensity : Option ℚ
  printwidth : Option ℚ
  instanceall : Option Bool
  framework : Option String
  pathPrefix : Option String
deriving DecidableEq, Repr

/-- The mesh entry parseMesh pushes when the accumulator already holds k mesh
entries (k feeds the positional fallback name). -/
def meshEntryAt (cfg : ParseConfig) (k : ℕ) (n : NodeData) (g : BufferGeometry)
    (m : Material) (cs rs : Bool) : ComponentMesh :=
  { name := sanitizeName (if n.name = "" then "Mesh_" ++ toString k else n.name)
    geometry := parseGeometry g
    material := parseMaterial m
    transform := parseTransform n
    castShadow := truthy cfg.shadows && cs
    receiveShadow := truthy cfg.shadows && rs }

/-- parser.ts parseMesh: sanitize the name (empty names are falsy and fall
back to the positional Mesh placeholder), extract geometry, material and
transform, record the shadow flags gated by the config, and push.  The
material import added inside parseMaterial equals the chosen tag. -/
def parseMeshStep (cfg : ParseConfig) (d : ComponentData) (n : NodeData)
    (g : BufferGeometry) (m : Material) (cs rs : Bool) : ComponentData :=
  { d with
    imports := insertImport d.imports (parseMaterial m).type
    meshes := d.meshes ++ [meshEntryAt cfg d.meshes.length n g m cs rs] }

/-- parser.ts parseLight, as the entry it pushes.  The unknown-light fall
through keeps the initial TresAmbientLight tag with an empty property bag. -/
def parseLightEntry (n : NodeData) (l : LightData) : ComponentLight :=
  let colorProp := optProp (l.color.hex ≠ 0xffffff) "color"
    (PropVal.str ("0x" ++ l.color.getHexString))
  match l.kind with
  | LightKind.directional =>
    { type := "TresDirectionalLight"
      props := [("intensity", PropVal.num l.intensity)] ++ colorProp
      transform := parseTransform n }
  | LightKind.ambient =>
    { type := "TresAmbientLight"
      props := [("intensity", PropVal.num l.intensity)] ++ colorProp
      transform := parseTransform n }
  | LightKind.point =>
    { type := "TresPointLight"
      props := [("intensity", PropVal.num l.intensity),
        ("distance", PropVal.num l.distance)] ++ colorProp
      transform := parseTransform n }
  | LightKind.spot =>
    { type := "TresSpotLight"
      props := [("intensity", PropVal.num l.intensity),
        ("distance", PropVal.num l.distance),
        ("angle", PropVal.num l.angle),
        ("penumbra", PropVal.num l.penumbra)] ++ colorProp
      transform := parseTransform n }
  | LightKind.otherLight =>
    { type := "TresAmbientLight", props := [], transform := parseTransform n }

/-- The import each parseLight branch adds; the unknown-light fall through
adds none. -/
def lightImportAdd (imps : List String) (k : LightKind) : List String :=
  match k with
  | LightKind.directional => insertImport imps "TresDirectionalLight"
  | LightKind.ambient => insertImport imps "TresAmbientLight"
  | LightKind.point => insertImport imps "TresPointLight"
  | LightKind.spot => insertImport imps "TresSpotLight"
  | LightKind.otherLight => imps

/-- The light step of the walker: push the entry and add the branch import. -/
def parseLightStep (d : ComponentData) (n : NodeData) (l : LightData) : ComponentData :=
  { d with
    imports := lightImportAdd d.imports l.kind
    lights := d.lights ++ [parseLightEntry n l] }

/-- parser.ts parseCamera, as the entry it pushes.  An unknown camera kind
keeps the initial TresPerspectiveCamera tag with an empty property bag. -/
def parseCameraEntry (n : NodeData) (c : CameraData) : ComponentCamera :=
  match c.kind with
  | CameraKind.perspective =>
    { type := "TresPerspectiveCamera"
      props := [("fov", PropVal.num c.fov), ("aspect", PropVal.num c.aspect),
        ("near", PropVal.num c.near), ("far", PropVal.num c.far)]
      transform := parseTransform n }
  | CameraKind.orthographic =>
    { type := "TresOrthographicCamera"
      props := [("left", PropVal.num c.left), ("right", PropVal.num c.right),
        ("top", PropVal.num c.top), ("bottom", PropVal.num c.bottom),
        ("near", PropVal.num c.near), ("far", PropVal.num c.far)]
      transform := parseTransform n }
  | CameraKind.otherCamera =>
    { type := "TresPerspectiveCamera", props := [], transform := parseTransform n }

/-- The import each parseCamera branch adds; the unknown-camera fall through
adds none. -/
def cameraImportAdd (imps : List String) (k : CameraKind) : List String :=
  match k with
  | CameraKind.perspective => insertImport imps "TresPerspectiveCamera"
  | CameraKind.orthographic => insertImport imps "TresOrthographicCamera"
  | CameraKind.otherCamera => imps

/-- The camera step of the walker. -/
def parseCameraStep (d : ComponentData) (n : NodeData) (c : CameraData) : ComponentData :=
  { d with
    imports := cameraImportAdd d.imports c.kind
    cameras := d.cameras ++ [parseCameraEntry n c] }

/-- One traversal callback of parseScene: the instanceof dispatch ladder. -/
def processObject (cfg : ParseConfig) (d : ComponentData) (n : NodeData) : ComponentData :=
  match n.payload with
  | Payload.mesh g m cs rs => parseMeshStep cfg d n g m cs rs
  | Payload.light l => parseLightStep d n l
  | Payload.camera c => parseCameraStep d n c
  | Payload.plain => d

/-! ### The scene tree and the walker -/

/-- A scene-graph object with its children, the tree Object3D.traverse
walks.  The source scene graph is a tree, so sharing and cycles do not
arise. -/
inductive Object3D where
  | node (data : NodeData) (children : List Object3D)

mutual

/-- Object3D.traverse visit order: the node itself, then each child subtree
left to right (depth-first pre-order). -/
def Object3D.preorder : Object3D → List NodeData
  | Object3D.node d cs => d :: preorderList cs

/-- Visit order of a forest of subtrees. -/
def preorderList : List Object3D → List NodeData
  | [] => []
  | o :: os => o.preorder ++ preorderList os

end

/-- The proper descendants of the root in visit order: scene.traverse with
the root itself skipped by the identity test of parseScene. -/
def descendants : Object3D → List NodeData
  | Object3D.node _ cs => preorderList cs

/-- parser.ts parseScene: one traversal, dispatching every proper descendant
of the root through the instanceof ladder. -/
def parseScene (cfg : ParseConfig) (root : Object3D) (d : ComponentData) : ComponentData :=
  (descendants root).foldl (processObject cfg) d

/-- One animation clip, reduced to the name parseAnimations reads. -/
structure AnimationClip where
  name : String
deriving DecidableEq, Repr

/-- parser.ts parseAnimations: add the useAnimations import and push one
sanitized name per clip in clip order, empty names falling back to the
positional Animation placeholder. -/
def parseAnimations (clips : List AnimationClip) (d : ComponentData) : ComponentData :=
  { d with
    imports := insertImport d.imports "useAnimations"
    animations := d.animations ++ clips.enum.map (fun p =>
      sanitizeName (if p.2.name = "" then "Animation_" ++ toString p.1 else p.2.name)) }

/-! ### Emission (parser.ts generate functions) -/

/-- The text of one rounded triple, joined with comma-space. -/
def tripleText (t : ℚ × ℚ × ℚ) : String :=
  ratText t.1 ++ ", " ++ ratText t.2.1 ++ ", " ++ ratText t.2.2

/-- parser.ts generateTransformProps: one attribute per present triple,
space-joined with a leading space when any is present. -/
def generateTransformProps (t : Transform) : String :=
  let props : List String :=
    (match t.position with
     | some v => [":position=\"[" ++ tripleText v ++ "]\""]
     | none => []) ++
    (match t.rotation with
     | some v => [":rotation=\"[" ++ tripleText v ++ "]\""]
     | none => []) ++
    (match t.scale with
     | some v => [":scale=\"[" ++ tripleText v ++ "]\""]
     | none => [])
  if props.length > 0 then " " ++ String.intercalate " " props else ""

/-- The attribute list rendered from a property bag, space-joined. -/
def propPairsText (l : List (String × PropVal)) : String :=
  String.intercalate " " (l.map (fun kv => ":" ++ kv.1 ++ "=\"" ++ kv.2.render ++ "\""))

/-- parser.ts generateLightTemplate. -/
def generateLightTemplate (light : ComponentLight) : String :=
  let props := propPairsText light.props
  let transform := generateTransformProps light.transform
  "    <" ++ light.type ++ transform ++ (if props = "" then "" else " " ++ props) ++ " />"

/-- parser.ts generateCameraTemplate. -/
def generateCameraTemplate (camera : ComponentCamera) : String :=
  let props := propPairsText camera.props
  let transform := generateTransformProps camera.transform
  "    <" ++ camera.type ++ transform ++ (if props = "" then "" else " " ++ props) ++ " />"

/-- The shadow marker fragment of a mesh line: both markers together when
shadows are enabled and the entry casts or receives, nothing otherwise. -/
def meshShadowMarks (cfg : ParseConfig) (mesh : ComponentMesh) : String :=
  if truthy cfg.shadows && (mesh.castShadow || mesh.receiveShadow) then
    " cast-shadow receive-shadow"
  else ""

/-- The args attribute of a geometry line; JSON.stringify prints the list
without spaces. -/
def geometryArgsText (g : GeometryOut) : String :=
  match g.args with
  | some l => ":args=\"[" ++ String.intercalate "," (l.map ratText) ++ "]\""
  | none => ""

/-- The part of the mesh template literal before the shadows hole. -/
def meshTemplateHead (mesh : ComponentMesh) : String :=
  "    <!-- " ++ mesh.name ++ " -->\n    <TresMesh" ++ generateTransformProps mesh.transform

/-- The part of the mesh template literal after the shadows hole. -/
def meshTemplateTail (mesh : ComponentMesh) : String :=
  let geometryProps := geometryArgsText mesh.geometry
  let materialProps := propPairsText mesh.material.props
  ">\n      <Tres" ++ mesh.geometry.type ++ "Geometry"
    ++ (if geometryProps = "" then "" else " " ++ geometryProps)
    ++ " />\n      <" ++ mesh.material.type
    ++ (if materialProps = "" then "" else " " ++ materialProps) ++ " />\n    </TresMesh>"

/-- parser.ts generateMeshTemplate, split at the shadows hole of the
template literal. -/
def generateMeshTemplate (mesh : ComponentMesh) (cfg : ParseConfig) : String :=
  meshTemplateHead mesh ++ meshShadowMarks cfg mesh ++ meshTemplateTail mesh

/-- The fixed escape-hatch tail of the markup block: the primitive line that
mounts the full original scene, then the closing group tag. -/
def sceneEscapeTail : String :=
  "    <!-- GLTF Scene -->\n    <primitive :object=\"scene\" />\n  </TresGroup>"

/-- parser.ts generateTemplate: light lines, then mesh lines, then camera
lines, each category newline-joined in entry order, closed by the
escape-hatch tail. -/
def generateTemplate (d : ComponentData) (cfg : ParseConfig) : String :=
  let groupRef := if d.animations.length > 0 then " ref=\"group\"" else ""
  let lights := String.intercalate "\n" (d.lights.map generateLightTemplate)
  let meshes := String.intercalate "\n" (d.meshes.map (fun m => generateMeshTemplate m cfg))
  let cameras := String.intercalate "\n" (d.cameras.map generateCameraTemplate)
  "  <TresGroup" ++ groupRef ++ ">\n" ++ lights ++ "\n" ++ meshes ++ "\n" ++ cameras ++ "\n"
    ++ sceneEscapeTail

/-- Array.from(set).sort(): the lexicographically sorted imports list. -/
def sortStrings (l : List String) : List String :=
  List.insertionSort (fun a b => a ≤ b) l

/-- parser.ts generateImports.  Braces and apostrophes of the emitted
JavaScript are written as escapes. -/
def generateImports (d : ComponentData) (cfg : ParseConfig) : String :=
  let tresImports := sortStrings d.imports
  let vueImports := if cfg.useComposition ≠ some false then ["ref", "onMounted"] else []
  let cientos := if d.animations.length > 0 then ["useGLTF", "useAnimations"] else ["useGLTF"]
  (if truthy cfg.types then "import type \x7b Ref \x7d from \x27vue\x27" else "") ++ "\n"
    ++ "import \x7b " ++ String.intercalate ", " vueImports ++ " \x7d from \x27vue\x27\n"
    ++ "import \x7b " ++ String.intercalate ", " tresImports ++ " \x7d from \x27@tresjs/core\x27\n"
    ++ "import \x7b " ++ String.intercalate ", " cientos ++ " \x7d from \x27@tresjs/cientos\x27"

/-- parser.ts generateProps. -/
def generateProps (cfg : ParseConfig) : String :=
  if truthy cfg.types then
    "interface Props \x7b\n  path?: string\n\x7d\n\nconst props = withDefaults(defineProps<Props>(), \x7b\n  path: \x27/"
      ++ cfg.fileName ++ "\x27\n\x7d)"
  else
    "const props = defineProps(\x7b\n  path: \x7b\n    type: String,\n    default: \x27/"
      ++ cfg.fileName ++ "\x27\n  \x7d\n\x7d)"

/-- parser.ts generateSetup. -/
def generateSetup (d : ComponentData) : String :=
  let modelLoad := "// Load GLTF model\nconst \x7b scene, animations \x7d = await useGLTF(props.path)"
  let animationSetup :=
    if d.animations.length > 0 then
      "\nconst group = ref()\nconst \x7b mixer, actions \x7d = useAnimations(animations, group)\n\nonMounted(() => \x7b\n  // Play all animations\n  Object.values(actions).forEach(action => \x7b\n    action?.play()\n  \x7d)\n\x7d)"
    else ""
  modelLoad ++ "\n" ++ animationSetup

/-- parser.ts getComponentName: base name of the file, first character
upper-cased, remaining non-alphanumerics removed. -/
def getComponentName (fileName : String) : String :=
  let base := (((fileName.splitOn "/").getLastD "").splitOn ".").headD ""
  let baseName := if base = "" then "Model" else base
  match baseName.data with
  | [] => baseName
  | c :: rest => String.mk (c.toUpper :: rest.filter (fun ch => ch.isAlphanum))

/-- parser.ts generateCompositionComponent (the componentName argument of the
source is unused by its template literal). -/
def generateCompositionComponent (d : ComponentData) (cfg : ParseConfig) : String :=
  let imports := generateImports d cfg
  let props := generateProps cfg
  let setup := generateSetup d
  let template := generateTemplate d cfg
  "<template>\n" ++ template ++ "\n</template>\n\n<script setup"
    ++ (if truthy cfg.types then " lang=\"ts\"" else "") ++ ">\n" ++ imports ++ "\n\n"
    ++ props ++ "\n\n" ++ setup
    ++ "\n</script>\n\n<style scoped>\n/* Add any component-specific styles here */\n</style>"

/-- parser.ts generateOptionsComponent. -/
def generateOptionsComponent (d : ComponentData) (cfg : ParseConfig)
    (componentName : String) : String :=
  let imports := generateImports d cfg
  let template := generateTemplate d cfg
  "<template>\n" ++ template ++ "\n</template>\n\n<script"
    ++ (if truthy cfg.types then " lang=\"ts\"" else "") ++ ">\n" ++ imports
    ++ "\n\nexport default \x7b\n  name: \x27" ++ componentName
    ++ "\x27,\n  props: \x7b\n    path: \x7b\n      type: String,\n      default: \x27/"
    ++ cfg.fileName
    ++ "\x27\n    \x7d\n  \x7d,\n  async setup(props) \x7b\n    const \x7b scene, animations \x7d = await useGLTF(props.path)\n    \n    return \x7b\n      scene,\n      animations\n    \x7d\n  \x7d\n\x7d\n</script>\n\n<style scoped>\n/* Add any component-specific styles here */\n</style>"

/-- parser.ts generateComponent: composition style unless useComposition is
exactly false. -/
def generateComponent (d : ComponentData) (cfg : ParseConfig) : String :=
  let componentName := getComponentName cfg.fileName
  if cfg.useComposition ≠ some false then generateCompositionComponent d cfg
  else generateOptionsComponent d cfg componentName

/-- The loaded model as parseToVue consumes it. -/
structure GLTF where
  scene : Object3D
  animations : List AnimationClip

/-- The accumulator parseToVue starts from: empty but for the two base
imports. -/
def initialData : ComponentData :=
  { imports := insertImport (insertImport [] "TresGroup") "TresMesh"
    animations := []
    meshes := []
    lights := []
    cameras := [] }

/-- parser.ts parseToVue: build the accumulator, walk the scene, collect the
animation clips when any are present, and emit the component text.  The
source marks the function async but it performs no input or output and never
suspends. -/
def parseToVue (gltf : GLTF) (cfg : ParseConfig) : String :=
  let d1 := parseScene cfg gltf.scene initialData
  let d2 := if gltf.animations.length > 0 then parseAnimations gltf.animations d1 else d1
  generateComponent d2 cfg

/-! ### Helper lemmas on property bags -/

theorem mem_keys_append (s : String) (a b : List (String × PropVal)) :
    s ∈ keys (a ++ b) ↔ s ∈ keys a ∨ s ∈ keys b := by
  simp [keys]

theorem mem_keys_optProp (s : String) (p : Prop) [Decidable p] (k : String) (v : PropVal) :
    s ∈ keys (optProp p k v) ↔ p ∧ s = k := by
  by_cases h : p <;> simp [optProp, h, keys]

theorem mem_keys_colorPropOf (s : String) (c : Option Color) :
    s ∈ keys (colorPropOf c) ↔ c.isSome = true ∧ s = "color" := by
  cases c <;> simp [colorPropOf, keys]

theorem mem_keys_sidePropOf (s : String) (sd : Side) :
    s ∈ keys (sidePropOf sd) ↔ sd ≠ Side.front ∧ s = "side" := by
  cases sd <;> simp [sidePropOf, keys]

/-! ### Probe inputs used by the concrete theorems -/

/-- A material whose dynamic class is MeshPhysicalMaterial, with a nonzero
clearcoat. -/
def physProbe : Material :=
  { kind := MatKind.physical
    color := some { hex := 0xff0000 }
    roughness := 1
    metalness := 0
    clearcoat := 1/2
    emissive := { hex := 0 }
    transparent := false
    opacity := 1
    side := Side.front }

/-- A MeshStandardMaterial at every engine default except an opacity above
one. -/
def stdDefaultProbe : Material :=
  { kind := MatKind.standard
    color := some { hex := 0xffffff }
    roughness := 1
    metalness := 0
    clearcoat := 0
    emissive := { hex := 0 }
    transparent := false
    opacity := 3/2
    side := Side.front }

/-- A MeshLambertMaterial at every engine default. -/
def lambertDefaultProbe : Material :=
  { kind := MatKind.lambert
    color := some { hex := 0xffffff }
    roughness := 1
    metalness := 0
    clearcoat := 0
    emissive := { hex := 0 }
    transparent := false
    opacity := 1
    side := Side.front }

/-- A node whose raw position is nonzero but rounds to zero at three decimal
places. -/
def tinyOffsetNode : NodeData :=
  { name := ""
    position := { x := 1/10000, y := 0, z := 0 }
    rotation := { x := 0, y := 0, z := 0 }
    scale := { x := 1, y := 1, z := 1 }
    payload := Payload.plain }

/-- A node with a plainly nonzero position and neutral rotation and scale. -/
def offsetNodeW : NodeData :=
  { name := ""
    position := { x := 2, y := 0, z := 0 }
    rotation := { x := 0, y := 0, z := 0 }
    scale := { x := 1, y := 1, z := 1 }
    payload := Payload.plain }

/-- The parameter record of a box whose width parameter is present and zero. -/
def zeroWidthParams : GeomParams :=
  { width := some 0, height := some 2, depth := some 3, radius := none
    widthSegments := none, heightSegments := none, radiusTop := none, radiusBottom := none }

/-- A box geometry whose width parameter is present and zero. -/
def zeroWidthBox : BufferGeometry :=
  { typeName := "BoxGeometry", kind := GeomKind.box, parameters := some zeroWidthParams }

/-! ### Claim theorems -/

/-- Claim C1 (code bug evidence).  The sanitizer first prepends an underscore
in front of a leading digit and then strips every leading underscore, so the
name "3abc" comes out as "3abc": it starts with a digit and does not match
the identifier language, contradicting the claimed invariant.  The fallback
for all-invalid names does work. -/
theorem sanitizeName_leading_digit_bug :
    sanitizeName "3abc" = "3abc" ∧ isValidIdent (sanitizeName "3abc") = false ∧
    sanitizeName "***" = "Component" ∧ sanitizeName "" = "Component" := by
  decide

/-- Claim C2 (code bug evidence).  MeshPhysicalMaterial extends
MeshStandardMaterial in three.js and parseMaterial tests the standard class
first, so a physical material receives the standard tag, never the physical
tag, and its clearcoat is dropped; the physical branch is unreachable. -/
theorem parseMaterial_physical_gets_standard_tag :
    physProbe.kind = MatKind.physical ∧
    (parseMaterial physProbe).type = "TresMeshStandardMaterial" ∧
    (parseMaterial physProbe).type ≠ "TresMeshPhysicalMaterial" ∧
    "clearcoat" ∉ keys (parseMaterial physProbe).props := by
  decide

/-- Claim C3 counterexample.  A position of one ten-thousandth rounds to the
neutral triple at three decimals, yet the extractor emits it (as the rounded
zero triple) because the un-rounded values are compared first: the claimed
round-before-compare order is false on the code. -/
theorem parseTransform_rounds_to_neutral_still_emitted :
    jsToFixed 3 tinyOffsetNode.position.x = 0 ∧
    tinyOffsetNode.position.x ≠ 0 ∧
    (parseTransform tinyOffsetNode).position = some (0, 0, 0) := by
  have hround : round ((1 : ℚ)/10000 * (10 : ℚ) ^ 3) = 0 := by
    rw [round_eq_zero_iff]
    constructor <;> norm_num
  have hx : jsToFixed 3 ((1 : ℚ)/10000) = 0 := by
    unfold jsToFixed
    rw [hround]
    norm_num
  have hx2 : jsToFixed 3 ((10000 : ℚ)⁻¹) = 0 := by
    rw [show ((10000 : ℚ)⁻¹) = 1/10000 by norm_num]
    exact hx
  have h0 : jsToFixed 3 (0 : ℚ) = 0 := by
    unfold jsToFixed
    simp
  have hne : ((1 : ℚ)/10000) ≠ 0 := by norm_num
  refine ⟨hx, hne, ?_⟩
  simp [parseTransform, tinyOffsetNode, hne, hx, hx2, h0]

/-- Claim C4 counterexample.  A standard material at the neutral white color
still gets a color key, and an opacity of three halves (not below one) still
gets an opacity key: the claimed elision of color-at-default and the claimed
below-one opacity guard are both false on the code, which tests color
truthiness and opacity inequality with one. -/
theorem parseMaterial_default_material_emits_color :
    (parseMaterial stdDefaultProbe).props =
      [("color", PropVal.str "0xffffff"), ("opacity", PropVal.num (3/2))] ∧
    stdDefaultProbe.color = some { hex := 0xffffff } ∧
    ¬((3 : ℚ)/2 < 1) := by
  have hop : (3 : ℚ)/2 ≠ 1 := by norm_num
  refine ⟨?_, rfl, by norm_num⟩
  simp [parseMaterial, stdDefaultProbe, isStandardInst, isPhysicalInst, isLambertInst,
    optProp, colorPropOf, sidePropOf, hop]
  decide

/-- Claim C5 counterexample.  A box whose width parameter is present with
value zero still gets the default width one, because the JavaScript or-else
substitutes on any falsy value, not only on an absent parameter: the claimed
substituted-exactly-when-absent rule is false on the code. -/
theorem parseGeometry_zero_param_defaulted :
    parseGeometry zeroWidthBox = { type := "Box", args := some [1, 2, 3] } ∧
    zeroWidthBox.parameters = some zeroWidthParams ∧
    zeroWidthParams.width = some 0 ∧
    parseGeometry zeroWidthBox ≠ { type := "Box", args := some [0, 2, 3] } := by
  decide

/-- Claim C3 as amended.  The transform extractor compares each raw triple to
its neutral value first: a triple whose raw components all equal neutral is
omitted, and any other triple is emitted with every component rounded through
toFixed at the fixed precision three (so a nonzero value that merely rounds
to neutral is still emitted). -/
theorem parseTransform_raw_compare_then_round (n : NodeData) :
    ((n.position.x = 0 ∧ n.position.y = 0 ∧ n.position.z = 0) →
      (parseTransform n).position = none) ∧
    (¬(n.position.x = 0 ∧ n.position.y = 0 ∧ n.position.z = 0) →
      (parseTransform n).position =
        some (jsToFixed 3 n.position.x, jsToFixed 3 n.position.y, jsToFixed 3 n.position.z)) ∧
    ((n.rotation.x = 0 ∧ n.rotation.y = 0 ∧ n.rotation.z = 0) →
      (parseTransform n).rotation = none) ∧
    (¬(n.rotation.x = 0 ∧ n.rotation.y = 0 ∧ n.rotation.z = 0) →
      (parseTransform n).rotation =
        some (jsToFixed 3 n.rotation.x, jsToFixed 3 n.rotation.y, jsToFixed 3 n.rotation.z)) ∧
    ((n.scale.x = 1 ∧ n.scale.y = 1 ∧ n.scale.z = 1) →
      (parseTransform n).scale = none) ∧
    (¬(n.scale.x = 1 ∧ n.scale.y = 1 ∧ n.scale.z = 1) →
      (parseTransform n).scale =
        some (jsToFixed 3 n.scale.x, jsToFixed 3 n.scale.y, jsToFixed 3 n.scale.z)) := by
  refine ⟨?_, ?_, ?_, ?_, ?_, ?_⟩ <;> intro h <;> simp [parseTransform] <;> tauto

/-- Witness for the amended claim C3 at a concrete node: a nonzero position
is emitted rounded while neutral rotation and scale are omitted. -/
theorem parseTransform_raw_compare_then_round_witness :
    (parseTransform offsetNodeW).position =
      some (jsToFixed 3 offsetNodeW.position.x, jsToFixed 3 offsetNodeW.position.y,
        jsToFixed 3 offsetNodeW.position.z) ∧
    (parseTransform offsetNodeW).rotation = none ∧
    (parseTransform offsetNodeW).scale = none :=
  ⟨(parseTransform_raw_compare_then_round offsetNodeW).2.1 (by norm_num [offsetNodeW]),
   (parseTransform_raw_compare_then_round offsetNodeW).2.2.1 (by norm_num [offsetNodeW]),
   (parseTransform_raw_compare_then_round offsetNodeW).2.2.2.2.1 (by norm_num [offsetNodeW])⟩

/-- Claim C5 as amended.  For the four supported kinds with a present
parameter record the positional argument list is emitted with each slot
defaulted when the parameter is falsy, that is absent or zero (not only when
absent); when the parameter record itself is absent, or the kind is
unsupported, the stripped tag is emitted with no argument list at all. -/
theorem parseGeometry_args_amended (g : BufferGeometry) (p : GeomParams) :
    (g.kind = GeomKind.box → g.parameters = some p →
      parseGeometry g = { type := replaceFirst g.typeName "Geometry" ""
                          args := some [jsOr p.width 1, jsOr p.height 1, jsOr p.depth 1] }) ∧
    (g.kind = GeomKind.sphere → g.parameters = some p →
      parseGeometry g = { type := replaceFirst g.typeName "Geometry" ""
                          args := some [jsOr p.radius 1, jsOr p.widthSegments 32,
                            jsOr p.heightSegments 16] }) ∧
    (g.kind = GeomKind.plane → g.parameters = some p →
      parseGeometry g = { type := replaceFirst g.typeName "Geometry" ""
                          args := some [jsOr p.width 1, jsOr p.height 1] }) ∧
    (g.kind = GeomKind.cylinder → g.parameters = some p →
      parseGeometry g = { type := replaceFirst g.typeName "Geometry" ""
                          args := some [jsOr p.radiusTop 1, jsOr p.radiusBottom 1,
                            jsOr p.height 1] }) ∧
    (g.kind = GeomKind.otherGeom →
      parseGeometry g = { type := replaceFirst g.typeName "Geometry" "", args := none }) ∧
    (g.parameters = none →
      parseGeometry g = { type := replaceFirst g.typeName "Geometry" "", args := none }) ∧
    (∀ d : ℚ, jsOr none d = d) ∧
    (∀ v d : ℚ, v ≠ 0 → jsOr (some v) d = v) ∧
    (∀ d : ℚ, jsOr (some 0) d = d) := by
  refine ⟨?_, ?_, ?_, ?_, ?_, ?_, ?_, ?_, ?_⟩
  · intro hk hp
    simp [parseGeometry, hk, hp]
  · intro hk hp
    simp [parseGeometry, hk, hp]
  · intro hk hp
    simp [parseGeometry, hk, hp]
  · intro hk hp
    simp [parseGeometry, hk, hp]
  · intro hk
    simp [parseGeometry, hk]
  · intro hp
    cases hk : g.kind <;> simp [parseGeometry, hk, hp]
  · intro d
    rfl
  · intro v d hv
    simp [jsOr, hv]
  · intro d
    simp [jsOr]

/-- Witness for the amended claim C5 at the concrete zero-width box. -/
theorem parseGeometry_args_amended_witness :
    parseGeometry zeroWidthBox =
      { type := replaceFirst zeroWidthBox.typeName "Geometry" ""
        args := some [jsOr zeroWidthParams.width 1, jsOr zeroWidthParams.height 1,
          jsOr zeroWidthParams.depth 1] } :=
  (parseGeometry_args_amended zeroWidthBox zeroWidthParams).1 rfl rfl

/-- Claim C6 (confirmed).  For the four recognized light kinds the property
bag carries intensity unconditionally; distance exactly for point and spot;
angle and penumbra exactly for spot; and color exactly when the light color
differs from pure white. -/
theorem parseLight_prop_presence (n : NodeData) (l : LightData)
    (h : l.kind ≠ LightKind.otherLight) :
    "intensity" ∈ keys (parseLightEntry n l).props ∧
    ("distance" ∈ keys (parseLightEntry n l).props ↔
      (l.kind = LightKind.point ∨ l.kind = LightKind.spot)) ∧
    ("angle" ∈ keys (parseLightEntry n l).props ↔ l.kind = LightKind.spot) ∧
    ("penumbra" ∈ keys (parseLightEntry n l).props ↔ l.kind = LightKind.spot) ∧
    ("color" ∈ keys (parseLightEntry n l).props ↔ l.color.hex ≠ 0xffffff) := by
  obtain ⟨k, color, intens, dist, ang, pen⟩ := l
  cases k <;>
    first
    | exact absurd rfl h
    | (by_cases hc : color.hex = 0xffffff <;>
        simp [parseLightEntry, keys, optProp, hc])

/-- A white spot light probe. -/
def spotProbe : LightData :=
  { kind := LightKind.spot
    color := { hex := 0xffffff }
    intensity := 2
    distance := 5
    angle := 1
    penumbra := 0 }

/-- A plain node carrying only a transform. -/
def plainNode : NodeData :=
  { name := "n"
    position := { x := 0, y := 0, z := 0 }
    rotation := { x := 0, y := 0, z := 0 }
    scale := { x := 1, y := 1, z := 1 }
    payload := Payload.plain }

/-- Witness for claim C6 at a concrete white spot light. -/
theorem parseLight_prop_presence_witness :
    "intensity" ∈ keys (parseLightEntry plainNode spotProbe).props ∧
    ("angle" ∈ keys (parseLightEntry plainNode spotProbe).props ↔
      spotProbe.kind = LightKind.spot) :=
  ⟨(parseLight_prop_presence plainNode spotProbe (by decide)).1,
   (parseLight_prop_presence plainNode spotProbe (by decide)).2.2.1⟩

/-- Claim C4 as amended.  The color key is present exactly when the material
has a (truthy) color channel, regardless of its value — so a material at
every engine default still carries the white color key and nothing else.
The numeric properties follow the claimed elision rule (roughness, metalness
and emissive only on the standard-instance branch and only off their engine
default; clearcoat never survives, because the physical branch is shadowed);
the transparent flag only when true; opacity whenever it differs from one
(not only below one); the side flag only off front. -/
theorem parseMaterial_prop_elision_amended (m : Material) :
    ("color" ∈ keys (parseMaterial m).props ↔ m.color.isSome = true) ∧
    ("roughness" ∈ keys (parseMaterial m).props → isStandardInst m = true ∧ m.roughness ≠ 1) ∧
    ("metalness" ∈ keys (parseMaterial m).props → isStandardInst m = true ∧ m.metalness ≠ 0) ∧
    ("clearcoat" ∉ keys (parseMaterial m).props) ∧
    ("emissive" ∈ keys (parseMaterial m).props → isStandardInst m = true ∧ m.emissive.hex ≠ 0) ∧
    ("transparent" ∈ keys (parseMaterial m).props ↔ m.transparent = true) ∧
    ("opacity" ∈ keys (parseMaterial m).props ↔ m.opacity ≠ 1) ∧
    ("side" ∈ keys (parseMaterial m).props ↔ m.side ≠ Side.front) ∧
    (m.color = some { hex := 0xffffff } → m.roughness = 1 → m.metalness = 0 →
      m.clearcoat = 0 → m.emissive.hex = 0 → m.transparent = false → m.opacity = 1 →
      m.side = Side.front →
      (parseMaterial m).props = [("color", PropVal.str "0xffffff")]) := by
  obtain ⟨k, c, rough, metal, clear, emis, transp, opac, sd⟩ := m
  refine ⟨?_, ?_, ?_, ?_, ?_, ?_, ?_, ?_, ?_⟩
  · cases k <;>
      simp [parseMaterial, isStandardInst, isPhysicalInst, isLambertInst,
        mem_keys_append, mem_keys_optProp, mem_keys_colorPropOf, mem_keys_sidePropOf]
  · cases k <;>
      simp [parseMaterial, isStandardInst, isPhysicalInst, isLambertInst,
        mem_keys_append, mem_keys_optProp, mem_keys_colorPropOf, mem_keys_sidePropOf]
  · cases k <;>
      simp [parseMaterial, isStandardInst, isPhysicalInst, isLambertInst,
        mem_keys_append, mem_keys_optProp, mem_keys_colorPropOf, mem_keys_sidePropOf]
  · cases k <;>
      simp [parseMaterial, isStandardInst, isPhysicalInst, isLambertInst,
        mem_keys_append, mem_keys_optProp, mem_keys_colorPropOf, mem_keys_sidePropOf]
  · cases k <;>
      simp [parseMaterial, isStandardInst, isPhysicalInst, isLambertInst,
        mem_keys_append, mem_keys_optProp, mem_keys_colorPropOf, mem_keys_sidePropOf]
  · cases k <;>
      simp [parseMaterial, isStandardInst, isPhysicalInst, isLambertInst,
        mem_keys_append, mem_keys_optProp, mem_keys_colorPropOf, mem_keys_sidePropOf]
  · cases k <;>
      simp [parseMaterial, isStandardInst, isPhysicalInst, isLambertInst,
        mem_keys_append, mem_keys_optProp, mem_keys_colorPropOf, mem_keys_sidePropOf]
  · cases k <;>
      simp [parseMaterial, isStandardInst, isPhysicalInst, isLambertInst,
        mem_keys_append, mem_keys_optProp, mem_keys_colorPropOf, mem_keys_sidePropOf]
  · intro hc hr hm hcl he ht ho hs
    obtain ⟨eh⟩ := emis
    simp only at he
    subst hc hr hm hcl he ht ho hs
    cases k <;> decide

/-- Witness for the amended claim C4: a lambert material at every engine
default yields exactly the white color key. -/
theorem parseMaterial_prop_elision_amended_witness :
    (parseMaterial lambertDefaultProbe).props = [("color", PropVal.str "0xffffff")] :=
  (parseMaterial_prop_elision_amended lambertDefaultProbe).2.2.2.2.2.2.2.2
    rfl rfl rfl rfl rfl rfl rfl rfl

/-! ### Walker bookkeeping for the category-order claim -/

/-- Whether the dispatch ladder classifies the node as a mesh. -/
def isMeshNode (n : NodeData) : Bool :=
  match n.payload with
  | Payload.mesh _ _ _ _ => true
  | _ => false

/-- Whether the dispatch ladder classifies the node as a light. -/
def isLightNode (n : NodeData) : Bool :=
  match n.payload with
  | Payload.light _ => true
  | _ => false

/-- Whether the dispatch ladder classifies the node as a camera. -/
def isCameraNode (n : NodeData) : Bool :=
  match n.payload with
  | Payload.camera _ => true
  | _ => false

/-- The light entries a visited node list contributes, in visit order. -/
def lightEntriesOf : List NodeData → List ComponentLight
  | [] => []
  | n :: ns =>
    match n.payload with
    | Payload.light ld => parseLightEntry n ld :: lightEntriesOf ns
    | _ => lightEntriesOf ns

/-- The camera entries a visited node list contributes, in visit order. -/
def cameraEntriesOf : List NodeData → List ComponentCamera
  | [] => []
  | n :: ns =>
    match n.payload with
    | Payload.camera c => parseCameraEntry n c :: cameraEntriesOf ns
    | _ => cameraEntriesOf ns

/-- The mesh entries a visited node list contributes when k mesh entries
already precede it (k feeds the positional fallback name). -/
def meshEntriesFrom (cfg : ParseConfig) (k : ℕ) : List NodeData → List ComponentMesh
  | [] => []
  | n :: ns =>
    match n.payload with
    | Payload.mesh g m cs rs => meshEntryAt cfg k n g m cs rs :: meshEntriesFrom cfg (k + 1) ns
    | _ => meshEntriesFrom cfg k ns

theorem foldl_lights (cfg : ParseConfig) (l : List NodeData) (d : ComponentData) :
    (l.foldl (processObject cfg) d).lights = d.lights ++ lightEntriesOf l := by
  induction l generalizing d with
  | nil => simp [lightEntriesOf]
  | cons n ns ih =>
    rw [List.foldl_cons, ih]
    cases hp : n.payload <;>
      simp [processObject, hp, parseMeshStep, parseLightStep, parseCameraStep, lightEntriesOf]

theorem foldl_cameras (cfg : ParseConfig) (l : List NodeData) (d : ComponentData) :
    (l.foldl (processObject cfg) d).cameras = d.cameras ++ cameraEntriesOf l := by
  induction l generalizing d with
  | nil => simp [cameraEntriesOf]
  | cons n ns ih =>
    rw [List.foldl_cons, ih]
    cases hp : n.payload <;>
      simp [processObject, hp, parseMeshStep, parseLightStep, parseCameraStep, cameraEntriesOf]

theorem foldl_meshes (cfg : ParseConfig) (l : List NodeData) (d : ComponentData) :
    (l.foldl (processObject cfg) d).meshes = d.meshes ++ meshEntriesFrom cfg d.meshes.length l := by
  induction l generalizing d with
  | nil => simp [meshEntriesFrom]
  | cons n ns ih =>
    rw [List.foldl_cons, ih]
    cases hp : n.payload <;>
      simp [processObject, hp, parseMeshStep, parseLightStep, parseCameraStep,
        meshEntriesFrom, List.append_assoc]

theorem lightEntriesOf_length (l : List NodeData) :
    (lightEntriesOf l).length = (l.filter isLightNode).length := by
  induction l with
  | nil => rfl
  | cons n ns ih =>
    cases hp : n.payload <;>
      simp [lightEntriesOf, List.filter_cons, isLightNode, hp, ih]

theorem cameraEntriesOf_length (l : List NodeData) :
    (cameraEntriesOf l).length = (l.filter isCameraNode).length := by
  induction l with
  | nil => rfl
  | cons n ns ih =>
    cases hp : n.payload <;>
      simp [cameraEntriesOf, List.filter_cons, isCameraNode, hp, ih]

theorem meshEntriesFrom_length (cfg : ParseConfig) (k : ℕ) (l : List NodeData) :
    (meshEntriesFrom cfg k l).length = (l.filter isMeshNode).length := by
  induction l generalizing k with
  | nil => rfl
  | cons n ns ih =>
    cases hp : n.payload <;>
      simp [meshEntriesFrom, List.filter_cons, isMeshNode, hp, ih]

/-- Claim C7 (confirmed).  After one walk from the initial accumulator, the
light, mesh and camera entry lists are exactly the per-category projections
of the proper-descendant visit list (depth-first pre-order, root excluded),
one entry per node, and the markup block renders the three categories in the
fixed order lights, then meshes, then cameras, each newline-joined in entry
order, before the escape-hatch tail. -/
theorem parseScene_template_category_order (cfg : ParseConfig) (root : Object3D) :
    (parseScene cfg root initialData).lights = lightEntriesOf (descendants root) ∧
    (parseScene cfg root initialData).meshes = meshEntriesFrom cfg 0 (descendants root) ∧
    (parseScene cfg root initialData).cameras = cameraEntriesOf (descendants root) ∧
    (parseScene cfg root initialData).lights.length
      = ((descendants root).filter isLightNode).length ∧
    (parseScene cfg root initialData).meshes.length
      = ((descendants root).filter isMeshNode).length ∧
    (parseScene cfg root initialData).cameras.length
      = ((descendants root).filter isCameraNode).length ∧
    generateTemplate (parseScene cfg root initialData) cfg =
      "  <TresGroup"
        ++ (if (parseScene cfg root initialData).animations.length > 0
            then " ref=\"group\"" else "")
        ++ ">\n"
        ++ String.intercalate "\n"
            ((parseScene cfg root initialData).lights.map generateLightTemplate)
        ++ "\n"
        ++ String.intercalate "\n"
            ((parseScene cfg root initialData).meshes.map (fun m => generateMeshTemplate m cfg))
        ++ "\n"
        ++ String.intercalate "\n"
            ((parseScene cfg root initialData).cameras.map generateCameraTemplate)
        ++ "\n" ++ sceneEscapeTail := by
  have hl := foldl_lights cfg (descendants root) initialData
  have hm := foldl_meshes cfg (descendants root) initialData
  have hc := foldl_cameras cfg (descendants root) initialData
  simp only [initialData] at hl hm hc
  simp only [List.nil_append, List.length_nil] at hl hm hc
  have hl2 : (parseScene cfg root initialData).lights = lightEntriesOf (descendants root) := hl
  have hm2 : (parseScene cfg root initialData).meshes =
    meshEntriesFrom cfg 0 (descendants root) := hm
  have hc2 : (parseScene cfg root initialData).cameras = cameraEntriesOf (descendants root) := hc
  refine ⟨hl2, hm2, hc2, ?_, ?_, ?_, rfl⟩
  · rw [hl2, lightEntriesOf_length]
  · rw [hm2, meshEntriesFrom_length]
  · rw [hc2, cameraEntriesOf_length]

/-! ### Determinism and sorted imports -/

theorem sortStrings_perm_eq {l₁ l₂ : List String} (h : l₁.Perm l₂) :
    sortStrings l₁ = sortStrings l₂ :=
  List.eq_of_perm_of_sorted
    ((List.perm_insertionSort _ l₁).trans (h.trans (List.perm_insertionSort _ l₂).symm))
    (List.sorted_insertionSort _ l₁) (List.sorted_insertionSort _ l₂)

/-- Claim C8 (confirmed).  The pipeline is a pure function, so repeated
invocations on the same scene and config agree; and the emitted imports block
depends on the imports set only up to insertion order, because it is sorted
before emission. -/
theorem parseToVue_deterministic_sorted_imports :
    (∀ (g : GLTF) (cfg : ParseConfig), parseToVue g cfg = parseToVue g cfg) ∧
    (∀ (cfg : ParseConfig) (d₁ d₂ : ComponentData), d₁.imports.Perm d₂.imports →
      d₁.animations = d₂.animations → generateImports d₁ cfg = generateImports d₂ cfg) := by
  refine ⟨fun g cfg => rfl, fun cfg d₁ d₂ hp ha => ?_⟩
  simp only [generateImports, sortStrings_perm_eq hp, ha]

/-- A minimal config probe. -/
def cfgW : ParseConfig :=
  { fileName := "model.gltf", types := none, useComposition := none, shadows := none
    autoRotate := none, contactShadow := none, environment := none, preset := none
    intensity := none, printwidth := none, instanceall := none, framework := none
    pathPrefix := none }

/-- An accumulator holding the base imports in one insertion order. -/
def importsA : ComponentData :=
  { imports := ["TresMesh", "TresGroup"], animations := [], meshes := [], lights := []
    cameras := [] }

/-- The same accumulator with the opposite insertion order. -/
def importsB : ComponentData :=
  { imports := ["TresGroup", "TresMesh"], animations := [], meshes := [], lights := []
    cameras := [] }

/-- Witness for claim C8: the two insertion orders of the base imports give
byte-identical imports blocks. -/
theorem parseToVue_deterministic_sorted_imports_witness :
    generateImports importsA cfgW = generateImports importsB cfgW :=
  parseToVue_deterministic_sorted_imports.2 cfgW importsA importsB
    (List.Perm.swap "TresGroup" "TresMesh" []) rfl

/-! ### Unsupported kinds degrade and the escape hatch closes every block -/

/-- Claim C9 (confirmed).  The conversion is total: every markup block ends
with the fixed escape-hatch tail that mounts the full original scene, and
each unsupported kind takes the fallback path of its extractor: unsupported
geometry keeps the stripped tag with no argument list, a material outside the
recognized classes gets the basic tag, an unsupported light falls through to
the ambient tag with an empty bag, and an unsupported camera falls through to
the perspective tag with an empty bag. -/
theorem conversion_total_escape_hatch :
    (∀ (d : ComponentData) (cfg : ParseConfig), ∃ body,
      generateTemplate d cfg = body ++ sceneEscapeTail) ∧
    (∀ g : BufferGeometry, g.kind = GeomKind.otherGeom →
      parseGeometry g = { type := replaceFirst g.typeName "Geometry" "", args := none }) ∧
    (∀ m : Material, isStandardInst m = false → isLambertInst m = false →
      (parseMaterial m).type = "TresMeshBasicMaterial") ∧
    (∀ (n : NodeData) (l : LightData), l.kind = LightKind.otherLight →
      parseLightEntry n l =
        { type := "TresAmbientLight", props := [], transform := parseTransform n }) ∧
    (∀ (n : NodeData) (c : CameraData), c.kind = CameraKind.otherCamera →
      parseCameraEntry n c =
        { type := "TresPerspectiveCamera", props := [], transform := parseTransform n }) := by
  refine ⟨fun d cfg => ⟨_, rfl⟩, ?_, ?_, ?_, ?_⟩
  · intro g hk
    simp [parseGeometry, hk]
  · intro m hs hl
    have hp : isPhysicalInst m = false := by
      cases hm : m.kind <;> simp_all [isStandardInst, isPhysicalInst]
    simp [parseMaterial, hs, hp, hl]
  · intro n l hk
    simp [parseLightEntry, hk]
  · intro n c hk
    simp [parseCameraEntry, hk]

/-- A geometry of an unsupported kind. -/
def otherGeomProbe : BufferGeometry :=
  { typeName := "TorusKnotGeometry", kind := GeomKind.otherGeom, parameters := none }

/-- A material outside every recognized class. -/
def otherMatProbe : Material :=
  { kind := MatKind.otherKind, color := none, roughness := 1, metalness := 0
    clearcoat := 0, emissive := { hex := 0 }, transparent := false, opacity := 1
    side := Side.front }

/-- A light of an unsupported kind. -/
def otherLightProbe : LightData :=
  { kind := LightKind.otherLight, color := { hex := 0xffffff }, intensity := 1
    distance := 0, angle := 0, penumbra := 0 }

/-- A camera of an unsupported kind. -/
def otherCameraProbe : CameraData :=
  { kind := CameraKind.otherCamera, fov := 50, aspect := 1, near := 1, far := 2000
    left := -1, right := 1, top := 1, bottom := -1 }

/-- Witness for claim C9 at concrete unsupported nodes. -/
theorem conversion_total_escape_hatch_witness :
    parseGeometry otherGeomProbe =
      { type := replaceFirst otherGeomProbe.typeName "Geometry" "", args := none } ∧
    (parseMaterial otherMatProbe).type = "TresMeshBasicMaterial" ∧
    parseLightEntry plainNode otherLightProbe =
      { type := "TresAmbientLight", props := [], transform := parseTransform plainNode } ∧
    parseCameraEntry plainNode otherCameraProbe =
      { type := "TresPerspectiveCamera", props := [], transform := parseTransform plainNode } :=
  ⟨conversion_total_escape_hatch.2.1 otherGeomProbe rfl,
   conversion_total_escape_hatch.2.2.1 otherMatProbe (by decide) (by decide),
   conversion_total_escape_hatch.2.2.2.1 plainNode otherLightProbe rfl,
   conversion_total_escape_hatch.2.2.2.2 plainNode otherCameraProbe rfl⟩

/-! ### Shadow markers -/

/-- Claim C10 (confirmed).  The two shadow markers are appended to a mesh
line only as a pair: when shadows are enabled and the source node casts or
receives (even only one of the two), the line carries both markers; when
shadows are disabled, or the node neither casts nor receives, it carries
neither; and the emitted line is exactly head, marker fragment, tail. -/
theorem mesh_shadow_markers_paired (cfg : ParseConfig) (k : ℕ) (n : NodeData)
    (g : BufferGeometry) (m : Material) (cs rs : Bool) :
    (truthy cfg.shadows = true → (cs || rs) = true →
      meshShadowMarks cfg (meshEntryAt cfg k n g m cs rs) = " cast-shadow receive-shadow") ∧
    (truthy cfg.shadows = false →
      meshShadowMarks cfg (meshEntryAt cfg k n g m cs rs) = "") ∧
    (cs = false → rs = false →
      meshShadowMarks cfg (meshEntryAt cfg k n g m cs rs) = "") ∧
    generateMeshTemplate (meshEntryAt cfg k n g m cs rs) cfg =
      meshTemplateHead (meshEntryAt cfg k n g m cs rs)
        ++ meshShadowMarks cfg (meshEntryAt cfg k n g m cs rs)
        ++ meshTemplateTail (meshEntryAt cfg k n g m cs rs) := by
  refine ⟨?_, ?_, ?_, rfl⟩
  · intro h1 h2
    cases cs <;> cases rs <;> simp_all [meshShadowMarks, meshEntryAt]
  · intro h1
    simp [meshShadowMarks, meshEntryAt, h1]
  · intro h1 h2
    subst h1 h2
    simp [meshShadowMarks, meshEntryAt]

/-- The minimal config with shadows enabled. -/
def cfgShadowW : ParseConfig := { cfgW with shadows := some true }

/-- Witness for claim C10: with shadows enabled, a node that only casts still
gets the full marker pair. -/
theorem mesh_shadow_markers_paired_witness :
    meshShadowMarks cfgShadowW
      (meshEntryAt cfgShadowW 0 plainNode otherGeomProbe otherMatProbe true false)
      = " cast-shadow receive-shadow" :=
  (mesh_shadow_markers_paired cfgShadowW 0 plainNode otherGeomProbe otherMatProbe
    true false).1 rfl rfl

end VueGltf
